import Mathlib

/-!
# Verification of the sheeta / AkibaPassTV extractor plugins

Shallow embedding of the decision logic of `yt_dlp/extractor/sheeta.py` and
`yt_dlp/extractor/akibapasstv.py`, together with theorems settling the claims
of the specification.  JSON fields read by the Python code are passed in as
`Option` values (a missing or `null` field is `none`); Python truthiness on
those values is modelled explicitly by the `truthy*` helpers below.
-/

set_option autoImplicit false

/-- Decidable equality on `Except`, so that concrete runs of the embedded
functions can be settled by `decide`. -/
instance instDecidableEqExcept {ε α : Type} [DecidableEq ε] [DecidableEq α] :
    DecidableEq (Except ε α) := fun x y =>
  match x, y with
  | .ok a, .ok b =>
    if h : a = b then .isTrue (by simp [h]) else .isFalse (by simp [h])
  | .ok _, .error _ => .isFalse (by simp)
  | .error _, .ok _ => .isFalse (by simp)
  | .error a, .error b =>
    if h : a = b then .isTrue (by simp [h]) else .isFalse (by simp [h])

namespace Sheeta

/-- Python truthiness of an optional string JSON field: `None` and the empty
string are falsy, every other string is truthy. -/
def truthyStr : Option String → Bool
| none => false
| some s => !s.isEmpty

/-- Python truthiness of an optional boolean JSON field: only `True` (here
`some true`) is truthy; `None` and `False` are falsy. -/
def truthyBool : Option Bool → Bool
| none => false
| some b => b

/-- Python truthiness of an optional integer JSON field: `None` and `0` are
falsy. -/
def truthyInt : Option Int → Bool
| none => false
| some i => i != 0

/-- The cause attached to an `ExtractorError`: either an `HTTPError` carrying a
status code, or some other (non-HTTP) cause. -/
inductive ErrorCause where
| httpError (status : Nat)
| otherCause (desc : String)
deriving DecidableEq

/-- Embedding of yt-dlp `ExtractorError`: message, `expected` flag (user-facing
errors), and optional cause. -/
structure ExtractorError where
msg : String
expected : Bool
cause : Option ErrorCause
deriving DecidableEq

/-- The four live statuses produced by `SheetaEmbedIE._get_live_status`. -/
inductive LiveStatus where
| is_upcoming
| is_live
| was_live
| not_live
deriving DecidableEq

/-- The two failure modes of `SheetaEmbedIE._get_live_status`.  `liveEnded`
carries the message of the expected `ExtractorError` raised when an ended live
has no downloadable video; `unknownType` carries the declared type that did not
match `vod` or `live` (the Python code formats it into the message with
`f-string !r`, which is not modelled). -/
inductive LiveStatusError where
| liveEnded (msg : String) (expected : Bool)
| unknownType (declaredType : Option String)
deriving DecidableEq

/-- Embedding of `SheetaEmbedIE._get_live_status` (sheeta.py lines 538-569).
Inputs are the JSON fields the Python code reads: `data_json.get('type')`,
`data_json.get('live_started_at')`, `data_json.get('live_finished_at')`, and
the traversals `('video', 'allow_dvr_flg')` and
`('video', 'convert_to_vod_flg')`.  Python `if x:` tests become `truthy*`
tests; `write_debug` calls have no effect and are dropped. -/
def get_live_status (video_type : Option String)
    (live_started_at live_finished_at : Option String)
    (allow_dvr_flg convert_to_vod_flg : Option Bool) :
    Except LiveStatusError LiveStatus :=
if video_type = some "vod" then
  if truthyStr live_finished_at then .ok .was_live else .ok .not_live
else if video_type = some "live" then
  if !truthyStr live_started_at then .ok .is_upcoming
  else if !truthyStr live_finished_at then .ok .is_live
  else if truthyBool allow_dvr_flg && truthyBool convert_to_vod_flg then
    .ok .was_live
  else
    .error (.liveEnded "Live was ended, there is no video for download" true)
else
  .error (.unknownType video_type)

/-- Modelled from the spec (section 4.3 table), for comparison with
`get_live_status`: the spec says `type=live & finish set → was_live, UNLESS
both DVR-allowed and convert-to-VOD flags are false, in which case this is a
hard, expected failure`. -/
def spec_live_status_table (video_type : Option String)
    (live_started_at live_finished_at : Option String)
    (allow_dvr_flg convert_to_vod_flg : Option Bool) :
    Except LiveStatusError LiveStatus :=
if video_type = some "vod" then
  if truthyStr live_finished_at then .ok .was_live else .ok .not_live
else if video_type = some "live" then
  if !truthyStr live_started_at then .ok .is_upcoming
  else if !truthyStr live_finished_at then .ok .is_live
  else if !truthyBool allow_dvr_flg && !truthyBool convert_to_vod_flg then
    .error (.liveEnded "Live was ended, there is no video for download" true)
  else
    .ok .was_live
else
  .error (.unknownType video_type)

/-- Amended table: identical to the code, with the failure case triggered
whenever NOT both flags are truthy (rather than only when both are falsy). -/
def amended_live_status_table (video_type : Option String)
    (live_started_at live_finished_at : Option String)
    (allow_dvr_flg convert_to_vod_flg : Option Bool) :
    Except LiveStatusError LiveStatus :=
if video_type = some "vod" then
  if truthyStr live_finished_at then .ok .was_live else .ok .not_live
else if video_type = some "live" then
  if !truthyStr live_started_at then .ok .is_upcoming
  else if !truthyStr live_finished_at then .ok .is_live
  else if !(truthyBool allow_dvr_flg && truthyBool convert_to_vod_flg) then
    .error (.liveEnded "Live was ended, there is no video for download" true)
  else
    .ok .was_live
else
  .error (.unknownType video_type)

/-- The status-code-to-reason dictionary `expected_code_msg` of
`SheetaEmbedIE._call_api_authed` (sheeta.py lines 381-386). -/
def expected_code_msg (status : Nat) : Option String :=
if status = 401 then some "Invalid token"
else if status = 403 then some "Login required"
else if status = 404 then some "Members-only content"
else if status = 408 then some "Outdated token"
else none

/-- Outcome of `SheetaEmbedIE._call_api_authed`: the JSON on success; a
login-required signal (message, `metadata_available`, login method) when the
failure status is one of the recognized codes; the original error re-raised
otherwise. -/
inductive AuthedCallResult (α : Type) where
| success (v : α)
| loginRequired (msg : String) (metadataAvailable : Bool) (method : String)
| propagated (e : ExtractorError)
deriving DecidableEq

/-- `_LOGIN_METHOD` class attribute of `SheetaEmbedIE` (sheeta.py line 361). -/
def LOGIN_METHOD : String := "password"

/-- Embedding of `SheetaEmbedIE._call_api_authed` (sheeta.py lines 380-400).
The underlying `_call_api` network call is passed in as its result
`r : Except ExtractorError α`.  On an `ExtractorError` whose cause is an
`HTTPError` with a status in `expected_code_msg`, the code calls
`raise_login_required('%s (%d)' % ..., metadata_available=True,
method=self._LOGIN_METHOD)`; on any other `ExtractorError` it re-raises it
unchanged (`raise e`).  The fixed header set does not affect the outcome and
is not modelled. -/
def call_api_authed {α : Type} (r : Except ExtractorError α) :
    AuthedCallResult α :=
match r with
| .ok v => .success v
| .error e =>
  match e.cause with
  | some (.httpError status) =>
    match expected_code_msg status with
    | some reason =>
      .loginRequired (reason ++ " (" ++ toString status ++ ")") true
        LOGIN_METHOD
    | none => .propagated e
  | _ => .propagated e

/-- Embedding of `SheetaEmbedIE._find_fanclub_site_id` (sheeta.py lines
402-411).  The secondary lookup is passed in as its already-traversed result
`lookup : Option Int` (the value of
`traverse_obj(fanclub_list_json, ('data', 'content_providers', 'id',
{int_or_none}), get_all=False)`).  The Python walrus test
`if fanclub_id := ...:` is a truthiness test, so `0` falls through to the
`ExtractorError`. -/
def find_fanclub_site_id (channel_id : String) (lookup : Option Int) :
    Except ExtractorError Int :=
if truthyInt lookup then .ok (lookup.getD 0)
else
  .error
    { msg := "Channel " ++ channel_id ++ " does not exist"
      expected := true
      cause := none }

/-- A raw comment object as returned by the `messages.history` endpoint, with
the fields read by `SheetaEmbedIE._get_comments`. -/
structure RawComment where
nickname : Option String
sender_id : Option String
comment_id : Option String
message : Option String
updated_at : Option String
sent_at : Option String
created_at : Option String
deriving DecidableEq

/-- A parsed comment record as yielded by `SheetaEmbedIE._get_comments`.
Timestamp strings are kept unparsed (`unified_timestamp` is not modelled); the
field holds the first present value among `updated_at`, `sent_at`,
`created_at`, as `traverse_obj` with a tuple of keys and `get_all=False`
selects it. -/
structure Comment where
author : Option String
author_id : Option String
comment_id : Option String
text : Option String
timestamp_raw : Option String
author_is_uploader : Option Bool
deriving DecidableEq

/-- The per-comment field mapping of `SheetaEmbedIE._get_comments` (sheeta.py
lines 528-536).  `{lambda x: x or None}` maps the empty string to `None`;
`author_is_uploader` is `sender_id == '-1'` when `sender_id` is present. -/
def parse_comment (c : RawComment) : Comment :=
{ author := c.nickname
  author_id := c.sender_id
  comment_id := c.comment_id.bind (fun s => if s.isEmpty then none else some s)
  text := c.message
  timestamp_raw := (c.updated_at.orElse fun _ => c.sent_at).orElse
    fun _ => c.created_at
  author_is_uploader := c.sender_id.map (fun s => s = "-1") }

/-- Outcome of `SheetaEmbedIE._get_comments`: `noGroupId` models the early
`return None` when `comment_group_id` is falsy, `rateLimited` the warning-and-
return path on HTTP 404, `fetched` the normal generator output. -/
inductive CommentsOutcome where
| noGroupId
| rateLimited (warning : String)
| fetched (comments : List Comment)
deriving DecidableEq

/-- The list of comments an outcome contributes to the extraction result: the
`noGroupId` and `rateLimited` paths yield nothing. -/
def CommentsOutcome.comments : CommentsOutcome → List Comment
| .fetched cs => cs
| _ => []

/-- Embedding of `SheetaEmbedIE._get_comments` (sheeta.py lines 501-536).  The
comment-token call and the `messages.history` download are passed in as their
results: `token_fetch` may fail with an `ExtractorError` (it is a fatal
`_call_api`), and `history` is the `(status, body)` pair from
`_download_json_handle(..., expected_status=404)` — the framework raises for
any other failing status, which the `Except` layer of `history` models.  On
`urlh.status == 404` the code reports a warning and returns, yielding no
comments and raising nothing. -/
def get_comments (comment_group_id : Option String)
    (token_fetch : Except ExtractorError String)
    (history : Except ExtractorError (Nat × List RawComment)) :
    Except ExtractorError CommentsOutcome :=
if !truthyStr comment_group_id then .ok .noGroupId
else
  match token_fetch with
  | .error e => .error e
  | .ok _ =>
    match history with
    | .error e => .error e
    | .ok (status, body) =>
      if status = 404 then
        .ok (.rateLimited "Unable to fetch comments due to rate limit")
      else
        .ok (.fetched (body.map parse_comment))

/-- Message built by the `audio_free` branch of `SheetaEmbedIE._yield_formats`
(sheeta.py lines 596-602): the suffix depends on the Python truthiness of
`traverse_obj(data_json, 'video_free_periods')`. -/
def audio_free_msg (video_free_periods : Bool) : String :=
"You have no right to access the paid content. " ++
  (if video_free_periods then "There may be some silent parts in this audio"
   else "This audio may be completely blank")

/-- Signal emitted while resolving the resolved-audio entry: either none, or a
login-required signal (message, `metadata_available`, login method). -/
inductive AudioAccessSignal where
| noSignal
| loginRequired (msg : String) (metadataAvailable : Bool) (method : String)
deriving DecidableEq

/-- Embedding of the audio-classification check inside
`SheetaEmbedIE._yield_formats` (sheeta.py lines 592-604): `audio_type` is the
traversed `video_filename_type.value` of the transcoded-list entry matching
the resolved resource URL; when it equals `audio_free` the code calls
`raise_login_required(msg, metadata_available=True,
method=self._LOGIN_METHOD)` with the message of `audio_free_msg`. -/
def audio_access_check (audio_type : Option String)
    (video_free_periods : Bool) : AudioAccessSignal :=
if audio_type = some "audio_free" then
  .loginRequired (audio_free_msg video_free_periods) true LOGIN_METHOD
else .noSignal

/-- A query-string value: the Python code mixes strings (video-list filters)
and integers (`live_type`, `page`, `per_page`). -/
inductive QueryVal where
| str (s : String)
| int (n : Nat)
deriving DecidableEq

/-- Lookup in a query dict built as a key-value list; later entries override
earlier ones, as in a Python dict literal with `**` splat. -/
def dictGet (d : List (String × QueryVal)) (k : String) : Option QueryVal :=
(d.reverse.find? (fun p => p.1 = k)).map (fun p => p.2)

/-- `filter_dict` over an association list of optional values: entries whose
value is `None` are dropped, the rest keep their order. -/
def filter_dict (d : List (String × Option QueryVal)) :
    List (String × QueryVal) :=
d.filterMap (fun p => p.2.map (fun v => (p.1, v)))

/-- `_LIST_PAGE_SIZE` class attribute of `SheetaEmbedIE` (sheeta.py line
360). -/
def LIST_PAGE_SIZE : Nat := 12

/-- The query dict sent by `SheetaEmbedIE._fetch_paged_channel_video_list`
(sheeta.py lines 615-624) for zero-based page index `page`:
`{**query, 'page': page + 1, 'per_page': self._LIST_PAGE_SIZE}`. -/
def fetch_paged_query (query : List (String × QueryVal)) (page : Nat) :
    List (String × QueryVal) :=
query ++ [("page", .int (page + 1)), ("per_page", .int LIST_PAGE_SIZE)]

/-- The caller-supplied filter dict of `SheetaEmbedIE._extract_video_list_page`
(sheeta.py lines 663-667), from the first values of the URL query parameters
`tag`, `sort` and `vodType`: `filter_dict({'tag': ..., 'sort': ...
default='-display_date', 'vod_type': ... default='0'})`. -/
def video_list_query (tag sort vodType : Option String) :
    List (String × QueryVal) :=
filter_dict
  [("tag", tag.map .str),
   ("sort", some (.str (sort.getD "-display_date"))),
   ("vod_type", some (.str (vodType.getD "0")))]

/-- The fixed filter dict of `SheetaEmbedIE._extract_live_list_page`
(sheeta.py line 696): `{'live_type': 4}`. -/
def live_list_query : List (String × QueryVal) := [("live_type", .int 4)]

end Sheeta

namespace AkibaPassTV

/-- Result of `AkibaPassTVIE._login` (akibapasstv.py lines 97-118):
`noCredentials` models `return True` when no username is configured,
`subscribed` the implicit `return None` on success, and `errMsg` the returned
error string. -/
inductive LoginResult where
| noCredentials
| subscribed
| errMsg (msg : String)
deriving DecidableEq

/-- Model of the Python `str.lower()` call applied to the captured marker:
character-wise lowercasing (`Char.toLower`), written over the character list
so that it evaluates by kernel reduction. -/
def str_lower (s : String) : String := ⟨s.data.map Char.toLower⟩

/-- Embedding of `AkibaPassTVIE._login`.  `username` is the first component of
`_get_login_info()` (`if not username:` is a truthiness test); `marker` is the
capture of the `user_has_subscription` regex over the login response, `none`
when the pattern is absent (the code then uses the default `'none'`).  The
returned `Nat` counts the credential POSTs issued (`_download_webpage` with
posted credentials). -/
def login (username : Option String) (marker : Option String) :
    LoginResult × Nat :=
if !Sheeta.truthyStr username then (.noCredentials, 0)
else
  let s := str_lower (marker.getD "none")
  if s = "true" then (.subscribed, 1)
  else if s = "false" then (.errMsg "Account is not subscribed", 1)
  else (.errMsg "Incorrect username/password", 1)

/-- How `AkibaPassTVIE._real_extract` reacts to the `_login` outcome
(akibapasstv.py lines 126-132): `loginRequired` models
`raise_login_required(method='any')`, `expectedError` the raised
`ExtractorError(login_err, expected=True)`, and `proceed` continuing the
extraction. -/
inductive ExtractOutcome where
| loginRequired (method : String)
| expectedError (msg : String)
| proceed
deriving DecidableEq

/-- Embedding of the error handling after `_login` in
`AkibaPassTVIE._real_extract`: `if login_err and '<div
id="watch-unauthorized"' in webpage:` — a `True` result raises
login-required, a string result raises an expected `ExtractorError`, and a
`None` result (subscribed) is falsy and proceeds. -/
def handle_login_result (r : LoginResult) (unauthorized : Bool) :
    ExtractOutcome :=
if unauthorized then
  match r with
  | .noCredentials => .loginRequired "any"
  | .subscribed => .proceed
  | .errMsg m => .expectedError m
else .proceed

end AkibaPassTV

/-!
## Theorems settling the claims
-/

/-- Claim C1, counterexample: the classifier does NOT match the section 4.3
table on every input.  For a `live` item with start and finish timestamps set,
DVR-allowed false and convert-to-VOD true, the code raises the expected
live-ended failure (it raises unless BOTH flags are truthy), while the table
says `was_live` (it reserves the failure for the case where both flags are
false). -/
theorem c1_live_status_table_counterexample :
    Sheeta.get_live_status (some "live") (some "2024-03-09T14:00:00")
        (some "2024-03-09T15:00:00") (some false) (some true) ≠
      Sheeta.spec_live_status_table (some "live") (some "2024-03-09T14:00:00")
        (some "2024-03-09T15:00:00") (some false) (some true) ∧
    Sheeta.get_live_status (some "live") (some "2024-03-09T14:00:00")
        (some "2024-03-09T15:00:00") (some false) (some true) =
      .error (.liveEnded "Live was ended, there is no video for download"
        true) ∧
    Sheeta.spec_live_status_table (some "live") (some "2024-03-09T14:00:00")
        (some "2024-03-09T15:00:00") (some false) (some true) =
      .ok .was_live := by
  refine ⟨?_, rfl, rfl⟩
  decide

/-- Claim C1 (amended): for every input tuple (declared type, live-start
timestamp, live-finish timestamp, DVR-allowed flag, convert-to-VOD flag) the
classifier returns exactly the state of the table whose ended-live failure
case fires whenever NOT both flags are truthy: vod with truthy finish →
was_live; vod otherwise → not_live; live with no truthy start → is_upcoming;
live with truthy start and no truthy finish → is_live; live with truthy
finish → was_live when both flags are truthy, otherwise the expected
live-ended failure; any other declared type → the unrecognized-type
failure. -/
theorem c1_live_status_matches_amended_table (video_type : Option String)
    (live_started_at live_finished_at : Option String)
    (allow_dvr_flg convert_to_vod_flg : Option Bool) :
    Sheeta.get_live_status video_type live_started_at live_finished_at
        allow_dvr_flg convert_to_vod_flg =
      Sheeta.amended_live_status_table video_type live_started_at
        live_finished_at allow_dvr_flg convert_to_vod_flg := by
  unfold Sheeta.get_live_status Sheeta.amended_live_status_table
  rcases h : Sheeta.truthyBool allow_dvr_flg &&
      Sheeta.truthyBool convert_to_vod_flg <;> simp [h]

/-- Claim C2, counterexample: for a `live` item with start and finish set,
DVR-allowed true and convert-to-VOD false, the flags are not both false, so
the claim predicts `was_live`; the code raises the expected live-ended
failure. -/
theorem c2_live_ended_failure_counterexample :
    ¬ (Sheeta.truthyBool (some true) = false ∧
        Sheeta.truthyBool (some false) = false) ∧
    Sheeta.get_live_status (some "live") (some "2022-07-30T10:00:00")
        (some "2022-07-30T12:00:00") (some true) (some false) =
      .error (.liveEnded "Live was ended, there is no video for download"
        true) := by
  exact ⟨by decide, rfl⟩

/-- Claim C2 (amended): for a content item of declared type `live` whose start
and finish timestamps are both set (truthy), the classifier raises the
expected live-ended failure exactly when the DVR-allowed flag and the
convert-to-VOD flag are NOT both truthy; it returns `was_live` exactly when
both flags are truthy. -/
theorem c2_live_ended_failure_condition
    (live_started_at live_finished_at : Option String)
    (allow_dvr_flg convert_to_vod_flg : Option Bool)
    (hs : Sheeta.truthyStr live_started_at = true)
    (hf : Sheeta.truthyStr live_finished_at = true) :
    (Sheeta.get_live_status (some "live") live_started_at live_finished_at
        allow_dvr_flg convert_to_vod_flg =
      .error (.liveEnded "Live was ended, there is no video for download"
        true) ↔
      ¬ (Sheeta.truthyBool allow_dvr_flg = true ∧
          Sheeta.truthyBool convert_to_vod_flg = true)) ∧
    (Sheeta.get_live_status (some "live") live_started_at live_finished_at
        allow_dvr_flg convert_to_vod_flg = .ok .was_live ↔
      (Sheeta.truthyBool allow_dvr_flg = true ∧
        Sheeta.truthyBool convert_to_vod_flg = true)) := by
  cases hd : Sheeta.truthyBool allow_dvr_flg <;>
    cases hc : Sheeta.truthyBool convert_to_vod_flg <;>
      simp [Sheeta.get_live_status, hs, hf, hd, hc]

/-- Witness for C2 (amended) at concrete inputs: with both flags truthy the
classifier returns `was_live`, and with DVR-allowed falsy it raises the
live-ended failure. -/
theorem c2_live_ended_failure_condition_witness :
    Sheeta.truthyStr (some "2022-07-30T10:00:00") = true ∧
    Sheeta.truthyStr (some "2022-07-30T12:00:00") = true ∧
    Sheeta.get_live_status (some "live") (some "2022-07-30T10:00:00")
        (some "2022-07-30T12:00:00") (some true) (some true) =
      .ok .was_live ∧
    Sheeta.get_live_status (some "live") (some "2022-07-30T10:00:00")
        (some "2022-07-30T12:00:00") (none) (some true) =
      .error (.liveEnded "Live was ended, there is no video for download"
        true) :=
  ⟨by decide, by decide,
    (c2_live_ended_failure_condition (some "2022-07-30T10:00:00")
      (some "2022-07-30T12:00:00") (some true) (some true) (by decide)
      (by decide)).2.mpr ⟨by decide, by decide⟩,
    (c2_live_ended_failure_condition (some "2022-07-30T10:00:00")
      (some "2022-07-30T12:00:00") none (some true) (by decide)
      (by decide)).1.mpr (by decide)⟩

/-- Claim C9: in the live-status classifier the missing-start check takes
precedence over the finish check: for every input of declared type `live`
whose live-start timestamp is falsy, the result is `is_upcoming` — even when a
live-finish timestamp is set and whatever the two flags are, so no flag-based
failure can be raised. -/
theorem c9_upcoming_takes_precedence
    (live_started_at live_finished_at : Option String)
    (allow_dvr_flg convert_to_vod_flg : Option Bool)
    (hs : Sheeta.truthyStr live_started_at = false) :
    Sheeta.get_live_status (some "live") live_started_at live_finished_at
        allow_dvr_flg convert_to_vod_flg = .ok .is_upcoming := by
  simp [Sheeta.get_live_status, hs]

/-- Witness for C9: a `live` item with no start but a set finish and both
flags false is classified `is_upcoming`, with no failure raised. -/
theorem c9_upcoming_takes_precedence_witness :
    Sheeta.truthyStr none = false ∧
    Sheeta.get_live_status (some "live") none (some "2024-01-01T00:00:00")
        (some false) (some false) = .ok .is_upcoming :=
  ⟨by decide,
    c9_upcoming_takes_precedence none (some "2024-01-01T00:00:00")
      (some false) (some false) (by decide)⟩

/-- Claim C3: for every authenticated API call that fails with an
`ExtractorError`, if its cause is an `HTTPError` whose status is in the
`expected_code_msg` dict the failure becomes a login-required signal carrying
the documented reason formatted with the status and `metadata_available=True`;
for an `HTTPError` status outside the dict, and for any non-HTTP cause, the
original error propagates unchanged.  The dict maps exactly 401 to `Invalid
token`, 403 to `Login required`, 404 to `Members-only content` and 408 to
`Outdated token`. -/
theorem c3_authed_call_status_mapping {α : Type} (e : Sheeta.ExtractorError) :
    (∀ status reason, e.cause = some (.httpError status) →
      Sheeta.expected_code_msg status = some reason →
      Sheeta.call_api_authed (α := α) (Except.error e) =
        .loginRequired (reason ++ " (" ++ toString status ++ ")") true
          Sheeta.LOGIN_METHOD) ∧
    (∀ status, e.cause = some (.httpError status) →
      Sheeta.expected_code_msg status = none →
      Sheeta.call_api_authed (α := α) (Except.error e) = .propagated e) ∧
    ((∀ status, e.cause ≠ some (.httpError status)) →
      Sheeta.call_api_authed (α := α) (Except.error e) = .propagated e) ∧
    (Sheeta.expected_code_msg 401 = some "Invalid token" ∧
     Sheeta.expected_code_msg 403 = some "Login required" ∧
     Sheeta.expected_code_msg 404 = some "Members-only content" ∧
     Sheeta.expected_code_msg 408 = some "Outdated token" ∧
     ∀ status, status ≠ 401 → status ≠ 403 → status ≠ 404 → status ≠ 408 →
       Sheeta.expected_code_msg status = none) := by
  refine ⟨?_, ?_, ?_, by decide, by decide, by decide, by decide, ?_⟩
  · intro status reason hc hm
    simp [Sheeta.call_api_authed, hc, hm]
  · intro status hc hm
    simp [Sheeta.call_api_authed, hc, hm]
  · intro hne
    rcases hc : e.cause with _ | c
    · simp [Sheeta.call_api_authed, hc]
    · rcases c with s | d
      · exact absurd hc (hne s)
      · simp [Sheeta.call_api_authed, hc]
  · intro status h1 h2 h3 h4
    simp [Sheeta.expected_code_msg, h1, h2, h3, h4]

/-- Witness for C3 at concrete errors: a 403 `HTTPError` becomes the
`Login required (403)` signal with metadata available; a 500 `HTTPError` and a
non-HTTP failure propagate unchanged. -/
theorem c3_authed_call_status_mapping_witness :
    Sheeta.call_api_authed (α := Nat)
        (Except.error ⟨"api failed", false, some (.httpError 403)⟩) =
      .loginRequired ("Login required" ++ " (" ++ toString (403 : Nat) ++ ")")
        true Sheeta.LOGIN_METHOD ∧
    Sheeta.call_api_authed (α := Nat)
        (Except.error ⟨"api failed", false, some (.httpError 500)⟩) =
      .propagated ⟨"api failed", false, some (.httpError 500)⟩ ∧
    Sheeta.call_api_authed (α := Nat)
        (Except.error ⟨"timeout", false, some (.otherCause "socket")⟩) =
      .propagated ⟨"timeout", false, some (.otherCause "socket")⟩ :=
  ⟨(c3_authed_call_status_mapping
      ⟨"api failed", false, some (.httpError 403)⟩).1 403 "Login required"
      rfl (by decide),
   (c3_authed_call_status_mapping
      ⟨"api failed", false, some (.httpError 500)⟩).2.1 500 rfl (by decide),
   (c3_authed_call_status_mapping
      ⟨"timeout", false, some (.otherCause "socket")⟩).2.2.1
      (fun s h => by simp at h)⟩

/-- Claim C4: the form-login flow has exactly these outcomes — with no
configured credentials `_login` returns the no-credentials signal without
issuing any credential POST, and `_real_extract` turns it into a
login-required signal; with the `user_has_subscription` marker captured as
`true` the login succeeds with no error and the extraction proceeds; with the
marker captured as `false` it yields the expected user-visible error with
exact message `Account is not subscribed`; with the marker absent, or
captured as any value whose lowercase form is neither `true` nor `false`, it
yields the incorrect-credentials error. -/
theorem c4_form_login_flow (username : Option String) :
    (Sheeta.truthyStr username = false →
      (∀ marker, AkibaPassTV.login username marker =
        (.noCredentials, 0)) ∧
      AkibaPassTV.handle_login_result .noCredentials true =
        .loginRequired "any") ∧
    (Sheeta.truthyStr username = true →
      AkibaPassTV.login username (some "true") = (.subscribed, 1) ∧
      AkibaPassTV.handle_login_result .subscribed true = .proceed ∧
      AkibaPassTV.login username (some "false") =
        (.errMsg "Account is not subscribed", 1) ∧
      AkibaPassTV.handle_login_result (.errMsg "Account is not subscribed")
        true = .expectedError "Account is not subscribed" ∧
      AkibaPassTV.login username none =
        (.errMsg "Incorrect username/password", 1) ∧
      (∀ s : String, AkibaPassTV.str_lower s ≠ "true" →
        AkibaPassTV.str_lower s ≠ "false" →
        AkibaPassTV.login username (some s) =
          (.errMsg "Incorrect username/password", 1))) := by
  constructor
  · intro h
    exact ⟨fun marker => by simp [AkibaPassTV.login, h], rfl⟩
  · intro h
    refine ⟨by simp [AkibaPassTV.login, h]; decide, rfl,
      by simp [AkibaPassTV.login, h]; decide, rfl,
      by simp [AkibaPassTV.login, h]; decide, ?_⟩
    intro s h1 h2
    simp [AkibaPassTV.login, h, h1, h2]

/-- Witness for C4 at concrete inputs: a configured user with marker `false`
gets the not-subscribed error after one POST, and a missing username returns
the no-credentials signal with zero POSTs. -/
theorem c4_form_login_flow_witness :
    Sheeta.truthyStr (some "alice") = true ∧
    AkibaPassTV.login (some "alice") (some "false") =
      (.errMsg "Account is not subscribed", 1) ∧
    Sheeta.truthyStr none = false ∧
    AkibaPassTV.login none (some "true") = (.noCredentials, 0) ∧
    AkibaPassTV.login (some "alice") (some "garbled page") =
      (.errMsg "Incorrect username/password", 1) :=
  ⟨by decide,
   ((c4_form_login_flow (some "alice")).2 (by decide)).2.2.1,
   by decide,
   ((c4_form_login_flow none).1 (by decide)).1 (some "true"),
   ((c4_form_login_flow (some "alice")).2 (by decide)).2.2.2.2.2
     "garbled page" (by decide) (by decide)⟩

/-- Claim C5: during audio format resolution, when the resolved audio entry is
classified `audio_free` a login-required signal is emitted with
`metadata_available=True` and the configured login method, and its message
depends on the `video_free_periods` metadata: with it truthy the message says
the audio may have silent parts, without it that the audio may be completely
blank — and the two messages differ. -/
theorem c5_audio_free_login_message (audio_type : Option String)
    (video_free_periods : Bool)
    (h : audio_type = some "audio_free") :
    Sheeta.audio_access_check audio_type video_free_periods =
      .loginRequired (Sheeta.audio_free_msg video_free_periods) true
        Sheeta.LOGIN_METHOD ∧
    Sheeta.audio_free_msg true =
      "You have no right to access the paid content. There may be some " ++
        "silent parts in this audio" ∧
    Sheeta.audio_free_msg false =
      "You have no right to access the paid content. This audio may be " ++
        "completely blank" ∧
    Sheeta.audio_free_msg true ≠ Sheeta.audio_free_msg false := by
  subst h
  exact ⟨rfl, by decide, by decide, by decide⟩

/-- Witness for C5: at the `audio_free` classification with
`video_free_periods` present, the signal carries the silent-parts message;
the claim theorem applies at that concrete input. -/
theorem c5_audio_free_login_message_witness :
    (some "audio_free" : Option String) = some "audio_free" ∧
    Sheeta.audio_access_check (some "audio_free") true =
      .loginRequired (Sheeta.audio_free_msg true) true
        Sheeta.LOGIN_METHOD :=
  ⟨rfl, (c5_audio_free_login_message (some "audio_free") true rfl).1⟩

/-- Claim C6: when the comment-history endpoint answers HTTP 404 (rate limit),
comment fetching returns successfully (no error is raised, so the extraction
does not fail) with the rate-limited outcome carrying the warning message, and
that outcome contributes no comments. -/
theorem c6_comments_rate_limited (comment_group_id : Option String)
    (token : String) (body : List Sheeta.RawComment)
    (hg : Sheeta.truthyStr comment_group_id = true) :
    Sheeta.get_comments comment_group_id (.ok token) (.ok (404, body)) =
      .ok (.rateLimited "Unable to fetch comments due to rate limit") ∧
    (Sheeta.CommentsOutcome.rateLimited
      "Unable to fetch comments due to rate limit").comments = [] := by
  refine ⟨?_, rfl⟩
  simp [Sheeta.get_comments, hg]

/-- Witness for C6: a concrete rate-limited fetch (group id set, status 404,
one raw comment in the body) yields the warning outcome and no failure. -/
theorem c6_comments_rate_limited_witness :
    Sheeta.truthyStr (some "g123") = true ∧
    Sheeta.get_comments (some "g123") (.ok "tok")
        (.ok (404, [⟨some "nick", some "-1", some "c1", some "hello",
          none, none, none⟩])) =
      .ok (.rateLimited "Unable to fetch comments due to rate limit") :=
  ⟨by decide,
    (c6_comments_rate_limited (some "g123") "tok"
      [⟨some "nick", some "-1", some "c1", some "hello", none, none, none⟩]
      (by decide)).1⟩

/-- Claim C7, counterexample: when the secondary lookup yields the numeric id
`0`, the claim says that id is returned, but the Python truthiness test on the
walrus assignment makes the code raise the channel-does-not-exist error
instead. -/
theorem c7_find_fanclub_site_id_counterexample :
    Sheeta.find_fanclub_site_id "testman" (some 0) ≠ .ok 0 ∧
    Sheeta.find_fanclub_site_id "testman" (some 0) =
      .error ⟨"Channel testman does not exist", true, none⟩ := by
  exact ⟨by decide, by decide⟩

/-- Claim C7 (amended): when the lookup yields no id, or the falsy id `0`, the
resolver fails with the expected channel-does-not-exist error naming the
channel; when it yields a nonzero id, that id is returned. -/
theorem c7_find_fanclub_site_id_behaviour (channel_id : String)
    (lookup : Option Int) :
    (Sheeta.truthyInt lookup = false →
      Sheeta.find_fanclub_site_id channel_id lookup =
        .error ⟨"Channel " ++ channel_id ++ " does not exist", true, none⟩) ∧
    (∀ i : Int, lookup = some i → i ≠ 0 →
      Sheeta.find_fanclub_site_id channel_id lookup = .ok i) := by
  constructor
  · intro h
    simp [Sheeta.find_fanclub_site_id, h]
  · intro i hl hi
    subst hl
    simp [Sheeta.find_fanclub_site_id, Sheeta.truthyInt, hi]

/-- Witness for C7 (amended): an absent lookup fails with the expected error
naming the channel, and the lookup result `123` is returned as is. -/
theorem c7_find_fanclub_site_id_behaviour_witness :
    Sheeta.truthyInt none = false ∧
    Sheeta.find_fanclub_site_id "kaorin" none =
      .error ⟨"Channel kaorin does not exist", true, none⟩ ∧
    Sheeta.find_fanclub_site_id "kaorin" (some 123) = .ok 123 :=
  ⟨by decide,
    (c7_find_fanclub_site_id_behaviour "kaorin" none).1 (by decide),
    (c7_find_fanclub_site_id_behaviour "kaorin" (some 123)).2 123 rfl
      (by decide)⟩

/-- Claim C8: every page request of the live-list fetcher carries the fixed
filter `live_type = 4` — and no entry with the `all ended streams` value `3`,
nor any other value, is ever attached to the `live_type` key — and every page
request of either list fetcher carries the fixed page size `per_page = 12`. -/
theorem c8_fixed_list_filters (page : Nat) :
    Sheeta.dictGet (Sheeta.fetch_paged_query Sheeta.live_list_query page)
      "live_type" = some (.int 4) ∧
    (∀ v, ("live_type", v) ∈
        Sheeta.fetch_paged_query Sheeta.live_list_query page →
      v = .int 4) ∧
    Sheeta.dictGet (Sheeta.fetch_paged_query Sheeta.live_list_query page)
      "per_page" = some (.int 12) ∧
    (∀ tag sort vodType : Option String,
      Sheeta.dictGet
        (Sheeta.fetch_paged_query (Sheeta.video_list_query tag sort vodType)
          page) "per_page" = some (.int 12)) := by
  refine ⟨?_, ?_, ?_, ?_⟩
  · simp [Sheeta.dictGet, Sheeta.fetch_paged_query, Sheeta.live_list_query,
      List.find?]
  · intro v hv
    simp [Sheeta.fetch_paged_query, Sheeta.live_list_query] at hv
    exact hv
  · simp [Sheeta.dictGet, Sheeta.fetch_paged_query, Sheeta.live_list_query,
      Sheeta.LIST_PAGE_SIZE, List.find?]
  · intro tag sort vodType
    rcases tag with _ | t <;> rcases sort with _ | s <;>
      rcases vodType with _ | v <;>
        simp [Sheeta.dictGet, Sheeta.fetch_paged_query,
          Sheeta.video_list_query, Sheeta.filter_dict,
          Sheeta.LIST_PAGE_SIZE, List.find?]

/-- Witness for C8: on the first page the live-list query contains
`live_type = 4` (the membership hypothesis of the value-uniqueness conjunct is
discharged at the concrete entry) and `per_page = 12`. -/
theorem c8_fixed_list_filters_witness :
    ("live_type", Sheeta.QueryVal.int 4) ∈
      Sheeta.fetch_paged_query Sheeta.live_list_query 0 ∧
    Sheeta.QueryVal.int 4 = Sheeta.QueryVal.int 4 ∧
    Sheeta.dictGet (Sheeta.fetch_paged_query Sheeta.live_list_query 0)
      "per_page" = some (.int 12) :=
  ⟨by decide, (c8_fixed_list_filters 0).2.1 (.int 4) (by decide),
    (c8_fixed_list_filters 0).2.2.1⟩

/-- Claim C10: when the video-list URL carries no query parameters (all three
first-values are absent), the caller-supplied filter dict is exactly
`sort = -display_date` and `vod_type = 0`, with the `tag` key omitted
entirely; and the key stays absent from every page request the fetcher
issues. -/
theorem c10_video_list_default_filters :
    Sheeta.video_list_query none none none =
      [("sort", .str "-display_date"), ("vod_type", .str "0")] ∧
    Sheeta.dictGet (Sheeta.video_list_query none none none) "tag" = none ∧
    (∀ page : Nat,
      Sheeta.dictGet
        (Sheeta.fetch_paged_query (Sheeta.video_list_query none none none)
          page) "tag" = none) := by
  refine ⟨by decide, by decide, ?_⟩
  intro page
  simp [Sheeta.dictGet, Sheeta.fetch_paged_query, Sheeta.video_list_query,
    Sheeta.filter_dict, List.find?]
